import Mathlib

/-!
Verification of the MRforSAR GPS broadcast servers
(`Assets/Scripts/gps_pc.py` and `Assets/Scripts/gps_android.py`).

Numbers handled by the scripts are modelled as exact rationals (`ℚ`):
the registry operations store coordinate values without arithmetic, and
the simulated source's `random.uniform`/`round` are modelled exactly.
The shared global `target_location` dict is modelled as a state that the
registry operations transform; the field-by-field read performed by the
packet builders is modelled by an explicit interleaving function.
-/

/-- The `target_location` global dict of both scripts: latitude/longitude
are `None` or a number, altitude a number, plus the `isSet` flag. -/
structure TargetLocation where
  latitude : Option ℚ
  longitude : Option ℚ
  altitude : ℚ
  isSet : Bool
  deriving DecidableEq, Repr

/-- Initial value of `target_location` at module load. -/
def target_location_init : TargetLocation :=
  { latitude := none, longitude := none, altitude := 0, isSet := false }

/-- Model of `set_target_location(lat, lon, alt)`: replaces the whole dict with
`{latitude: lat, longitude: lon, altitude: alt, isSet: True}`.  The previous
value is not consulted. -/
def set_target_location (lat lon alt : ℚ) : TargetLocation :=
  { latitude := some lat, longitude := some lon, altitude := alt, isSet := true }

/-- Calling `set_target_location(lat, lon)` with the `alt=0` Python default. -/
def set_target_location_default (lat lon : ℚ) : TargetLocation :=
  set_target_location lat lon 0

/-- Model of `clear_target_location()`: replaces the whole dict with
`{latitude: None, longitude: None, altitude: 0, isSet: False}`. -/
def clear_target_location : TargetLocation :=
  { latitude := none, longitude := none, altitude := 0, isSet := false }

/-- The two mutating operations available on the registry. -/
inductive RegistryOp where
  | set (lat lon alt : ℚ)
  | clear
  deriving DecidableEq, Repr

/-- Apply one registry operation to the current state.  Both operations
replace the dict wholesale; the prior value is never consulted. -/
def applyOp (_t : TargetLocation) : RegistryOp → TargetLocation
  | .set lat lon alt => set_target_location lat lon alt
  | .clear => clear_target_location

/-- Apply a sequence of registry operations in order. -/
def applyOps (t : TargetLocation) (ops : List RegistryOp) : TargetLocation :=
  ops.foldl applyOp t

/-- A registry state is reachable when some sequence of set/clear calls
starting from the initial state produces it. -/
def Reachable (t : TargetLocation) : Prop :=
  ∃ ops : List RegistryOp, applyOps target_location_init ops = t

/-- The state invariant relating `isSet` to the presence of coordinates. -/
def targetInv (t : TargetLocation) : Prop :=
  t.isSet = false ↔ (t.latitude = none ∧ t.longitude = none)

lemma targetInv_init : targetInv target_location_init := by
  simp [targetInv, target_location_init]

lemma targetInv_applyOp (t : TargetLocation) (op : RegistryOp) :
    targetInv (applyOp t op) := by
  cases op <;> simp [targetInv, applyOp, set_target_location, clear_target_location]

lemma targetInv_applyOps (ops : List RegistryOp) (t : TargetLocation)
    (h : targetInv t) : targetInv (applyOps t ops) := by
  induction ops generalizing t with
  | nil => exact h
  | cons op rest ih => exact ih (applyOp t op) (targetInv_applyOp t op)

lemma reachable_targetInv (t : TargetLocation) (h : Reachable t) : targetInv t := by
  obtain ⟨ops, rfl⟩ := h
  exact targetInv_applyOps ops target_location_init targetInv_init

lemma reachable_applyOps (t : TargetLocation) (h : Reachable t)
    (w : List RegistryOp) : Reachable (applyOps t w) := by
  obtain ⟨ops, rfl⟩ := h
  exact ⟨ops ++ w, by simp [applyOps, List.foldl_append]⟩

/-- C1: for every lat, lon, alt, calling `set_target_location(lat, lon, alt)`
from any prior state and then reading the registry yields exactly the
waypoint `{latitude: lat, longitude: lon, altitude: alt, isSet: true}`,
with the values stored unvalidated and unaltered; omitting `alt` stores
altitude 0. -/
theorem set_then_snapshot_exact (t : TargetLocation) (lat lon alt : ℚ) :
    applyOp t (.set lat lon alt) =
      { latitude := some lat, longitude := some lon, altitude := alt, isSet := true } ∧
    set_target_location_default lat lon =
      { latitude := some lat, longitude := some lon, altitude := 0, isSet := true } := by
  exact ⟨rfl, rfl⟩

/-- C2: calling `clear_target_location()` from any prior state (set or not)
yields exactly `{latitude: none, longitude: none, altitude: 0, isSet: false}`;
in particular any previously set altitude is reset to 0. -/
theorem clear_then_snapshot_exact (t : TargetLocation) :
    applyOp t .clear =
      { latitude := none, longitude := none, altitude := 0, isSet := false } := by
  exact rfl

/-- C3: in every reachable registry state, `isSet = false` holds exactly when
latitude and longitude are absent (`None`), never a numeric default. -/
theorem reachable_isSet_iff_absent (t : TargetLocation) (h : Reachable t) :
    t.isSet = false ↔ (t.latitude = none ∧ t.longitude = none) :=
  reachable_targetInv t h

/-- C3 witness: the invariant is checked on a concrete reachable state. -/
theorem reachable_isSet_iff_absent_witness :
    Reachable clear_target_location ∧
      (clear_target_location.isSet = false ↔
        (clear_target_location.latitude = none ∧
          clear_target_location.longitude = none)) :=
  ⟨⟨[RegistryOp.clear], rfl⟩,
    reachable_isSet_iff_absent clear_target_location ⟨[RegistryOp.clear], rfl⟩⟩

/-- The target portion of an outbound packet is built by four separate reads
of the shared global (`target_location["latitude"]`, then `["longitude"]`,
then `["altitude"]`, then `["isSet"]`, in the evaluation order of the dict
literal in `generate_random_gps` / `get_android_gps`).  The console thread
may run whole-dict writes between consecutive reads: `w1` are the writes
between the latitude and longitude reads, `w2` between longitude and
altitude, `w3` between altitude and `isSet`. -/
def readTargetInterleaved (t0 : TargetLocation)
    (w1 w2 w3 : List RegistryOp) : TargetLocation :=
  let t1 := applyOps t0 w1
  let t2 := applyOps t1 w2
  let t3 := applyOps t2 w3
  { latitude := t0.latitude, longitude := t1.longitude,
    altitude := t2.altitude, isSet := t3.isSet }

/-- C4 counterexample: start from the state written whole by
`set_target_location 1 2 3`; a `clear_target_location` call lands between the
reader's latitude and longitude reads.  The observed snapshot
`{latitude: some 1, longitude: none, altitude: 0, isSet: false}` is not any
state a sequence of whole writes can produce: the four fields mix two
different writes. -/
theorem torn_snapshot_counterexample :
    ¬ Reachable (readTargetInterleaved (set_target_location 1 2 3)
      [RegistryOp.clear] [] []) := by
  intro h
  have hinv := reachable_targetInv _ h
  have : (readTargetInterleaved (set_target_location 1 2 3)
      [RegistryOp.clear] [] []) =
      { latitude := some 1, longitude := none, altitude := 0, isSet := false } := rfl
  rw [this] at hinv
  simp [targetInv] at hinv

/-- C4 amended: every write replaces the waypoint wholesale, and a read with
no interleaved write returns exactly the current wholly-written waypoint;
but since the packet builder reads the four fields one at a time, each field
of an interleaved read comes from some wholly-written (reachable)
intermediate state, while a single snapshot may combine fields of different
writes. -/
theorem interleaved_read_fields (t0 : TargetLocation) (h : Reachable t0)
    (w1 w2 w3 : List RegistryOp) :
    readTargetInterleaved t0 [] [] [] = t0 ∧
    Reachable (applyOps t0 w1) ∧
    Reachable (applyOps (applyOps t0 w1) w2) ∧
    Reachable (applyOps (applyOps (applyOps t0 w1) w2) w3) ∧
    readTargetInterleaved t0 w1 w2 w3 =
      { latitude := t0.latitude,
        longitude := (applyOps t0 w1).longitude,
        altitude := (applyOps (applyOps t0 w1) w2).altitude,
        isSet := (applyOps (applyOps (applyOps t0 w1) w2) w3).isSet } := by
  refine ⟨rfl, reachable_applyOps t0 h w1,
    reachable_applyOps _ (reachable_applyOps t0 h w1) w2,
    reachable_applyOps _ (reachable_applyOps _ (reachable_applyOps t0 h w1) w2) w3,
    rfl⟩

/-- C4 amended witness: the amended statement checked on the
counterexample's schedule. -/
theorem interleaved_read_fields_witness :
    Reachable (set_target_location 1 2 3) ∧
    readTargetInterleaved (set_target_location 1 2 3) [] [] [] =
      set_target_location 1 2 3 ∧
    readTargetInterleaved (set_target_location 1 2 3) [RegistryOp.clear] [] [] =
      { latitude := (set_target_location 1 2 3).latitude,
        longitude := (applyOps (set_target_location 1 2 3) [RegistryOp.clear]).longitude,
        altitude := (applyOps (set_target_location 1 2 3) [RegistryOp.clear]).altitude,
        isSet := (applyOps (set_target_location 1 2 3) [RegistryOp.clear]).isSet } :=
  have hr : Reachable (set_target_location 1 2 3) := ⟨[RegistryOp.set 1 2 3], rfl⟩
  ⟨hr, (interleaved_read_fields _ hr [] [] []).1,
    (interleaved_read_fields _ hr [RegistryOp.clear] [] []).2.2.2.2⟩

/-- One outbound packet, the dict literal both scripts serialize and send. -/
structure Packet where
  latitude : ℚ
  longitude : ℚ
  altitude : ℚ
  timestamp : ℤ
  valid : Bool
  targetLatitude : Option ℚ
  targetLongitude : Option ℚ
  targetAltitude : ℚ
  hasTarget : Bool
  deriving DecidableEq, Repr

/-- Python `round(q, n)` to `n` decimal places, modelled with round-to-nearest
on exact rationals. -/
def roundTo (n : ℕ) (q : ℚ) : ℚ :=
  ((round (q * 10 ^ n) : ℤ) : ℚ) / 10 ^ n

/-- Python `random.uniform(a, b)`: `a + (b - a) * u` for a draw
`u ∈ [0, 1]`. -/
def uniform (a b u : ℚ) : ℚ :=
  a + (b - a) * u

/-- Model of `generate_random_gps()` of `gps_pc.py`, with the three uniform draws,
the current epoch-millisecond clock and the current `target_location`
made explicit parameters. -/
def generate_random_gps (u1 u2 u3 : ℚ) (now : ℤ) (t : TargetLocation) : Packet :=
  { latitude := roundTo 4 (uniform 63.3 63.5 u1)
    longitude := roundTo 4 (uniform 10.3 10.7 u2)
    altitude := roundTo 1 (uniform 0 100 u3)
    timestamp := now
    valid := true
    targetLatitude := t.latitude
    targetLongitude := t.longitude
    targetAltitude := t.altitude
    hasTarget := t.isSet }

lemma round_mono_rat {x y : ℚ} (h : x ≤ y) : round x ≤ round y := by
  rw [round_eq, round_eq]
  exact Int.floor_mono (by linarith)

lemma roundTo_le_of_le {n : ℕ} {q b : ℚ} (zb : ℤ)
    (hb : (zb : ℚ) = b * 10 ^ n) (h : q ≤ b) : roundTo n q ≤ b := by
  rw [roundTo, div_le_iff₀ (by positivity)]
  have h1 : q * 10 ^ n ≤ (zb : ℚ) := by
    rw [hb]
    have : (0 : ℚ) < 10 ^ n := by positivity
    nlinarith
  have h2 : round (q * 10 ^ n) ≤ zb := by
    have := round_mono_rat h1
    rwa [round_intCast] at this
  calc ((round (q * 10 ^ n) : ℤ) : ℚ) ≤ (zb : ℚ) := by exact_mod_cast h2
    _ = b * 10 ^ n := hb

lemma le_roundTo_of_le {n : ℕ} {q a : ℚ} (za : ℤ)
    (ha : (za : ℚ) = a * 10 ^ n) (h : a ≤ q) : a ≤ roundTo n q := by
  rw [roundTo, le_div_iff₀ (by positivity)]
  have h1 : (za : ℚ) ≤ q * 10 ^ n := by
    rw [ha]
    have : (0 : ℚ) < 10 ^ n := by positivity
    nlinarith
  have h2 : za ≤ round (q * 10 ^ n) := by
    have := round_mono_rat h1
    rwa [round_intCast] at this
  calc a * 10 ^ n = (za : ℚ) := ha.symm
    _ ≤ ((round (q * 10 ^ n) : ℤ) : ℚ) := by exact_mod_cast h2

lemma uniform_mem {a b u : ℚ} (hab : a ≤ b) (h0 : 0 ≤ u) (h1 : u ≤ 1) :
    a ≤ uniform a b u ∧ uniform a b u ≤ b := by
  unfold uniform
  constructor
  · nlinarith [mul_nonneg (sub_nonneg.2 hab) h0]
  · nlinarith [mul_le_of_le_one_right (sub_nonneg.2 hab) h1]

/-- C5: for every draw of the three underlying uniform values in `[0, 1]`,
the simulated reading satisfies `63.3 ≤ latitude ≤ 63.5`,
`10.3 ≤ longitude ≤ 10.7`, `0 ≤ altitude ≤ 100` and `valid = true`, the
coordinates being rounded to 4 decimal places and the altitude to 1; hence
any number of consecutive polls all satisfy the bounds. -/
theorem generate_random_gps_bounds (u1 u2 u3 : ℚ) (now : ℤ) (t : TargetLocation)
    (h1l : 0 ≤ u1) (h1r : u1 ≤ 1) (h2l : 0 ≤ u2) (h2r : u2 ≤ 1)
    (h3l : 0 ≤ u3) (h3r : u3 ≤ 1) :
    63.3 ≤ (generate_random_gps u1 u2 u3 now t).latitude ∧
    (generate_random_gps u1 u2 u3 now t).latitude ≤ 63.5 ∧
    10.3 ≤ (generate_random_gps u1 u2 u3 now t).longitude ∧
    (generate_random_gps u1 u2 u3 now t).longitude ≤ 10.7 ∧
    0 ≤ (generate_random_gps u1 u2 u3 now t).altitude ∧
    (generate_random_gps u1 u2 u3 now t).altitude ≤ 100 ∧
    (generate_random_gps u1 u2 u3 now t).valid = true := by
  obtain ⟨hla, hlb⟩ := uniform_mem (by norm_num : (63.3 : ℚ) ≤ 63.5) h1l h1r
  obtain ⟨hoa, hob⟩ := uniform_mem (by norm_num : (10.3 : ℚ) ≤ 10.7) h2l h2r
  obtain ⟨haa, hab⟩ := uniform_mem (by norm_num : (0 : ℚ) ≤ 100) h3l h3r
  refine ⟨le_roundTo_of_le 633000 (by norm_num) hla,
    roundTo_le_of_le 635000 (by norm_num) hlb,
    le_roundTo_of_le 103000 (by norm_num) hoa,
    roundTo_le_of_le 107000 (by norm_num) hob,
    le_roundTo_of_le 0 (by norm_num) haa,
    roundTo_le_of_le 1000 (by norm_num) hab, rfl⟩

/-- C5 witness: the bounds checked at the concrete draws `(1/2, 1/2, 1/2)`. -/
theorem generate_random_gps_bounds_witness :
    63.3 ≤ (generate_random_gps (1/2) (1/2) (1/2) 0 target_location_init).latitude ∧
    (generate_random_gps (1/2) (1/2) (1/2) 0 target_location_init).latitude ≤ 63.5 ∧
    10.3 ≤ (generate_random_gps (1/2) (1/2) (1/2) 0 target_location_init).longitude ∧
    (generate_random_gps (1/2) (1/2) (1/2) 0 target_location_init).longitude ≤ 10.7 ∧
    0 ≤ (generate_random_gps (1/2) (1/2) (1/2) 0 target_location_init).altitude ∧
    (generate_random_gps (1/2) (1/2) (1/2) 0 target_location_init).altitude ≤ 100 ∧
    (generate_random_gps (1/2) (1/2) (1/2) 0 target_location_init).valid = true :=
  generate_random_gps_bounds (1/2) (1/2) (1/2) 0 target_location_init
    (by norm_num) (by norm_num) (by norm_num) (by norm_num) (by norm_num) (by norm_num)

/-- The JSON object printed by `termux-location`, as far as
`get_android_gps` inspects it: the three keys, each possibly absent. -/
structure LocationJson where
  latitude : Option ℚ
  longitude : Option ℚ
  altitude : Option ℚ
  deriving DecidableEq, Repr

/-- Outcome of the `subprocess.check_output(['termux-location'])` call plus
the `json.loads` parse: `failure` covers a failing command and output that
is not valid JSON; `ok` carries the parsed object. -/
inductive SensorResult where
  | failure
  | ok (data : LocationJson)
  deriving DecidableEq, Repr

/-- The fallback packet built in the `except` branch of `get_android_gps`:
zeroed coordinates, `valid: False`, current timestamp, target fields still
attached. -/
def fallback_gps (now : ℤ) (t : TargetLocation) : Packet :=
  { latitude := 0, longitude := 0, altitude := 0, timestamp := now,
    valid := false, targetLatitude := t.latitude,
    targetLongitude := t.longitude, targetAltitude := t.altitude,
    hasTarget := t.isSet }

/-- Model of `get_android_gps()` of `gps_android.py`, with the sensor-call outcome,
the clock and the current `target_location` made explicit.  A missing
`latitude` or `longitude` key raises `KeyError` inside the `try`, which the
`except` catches; a missing `altitude` key is defaulted to 0 by
`location_data.get('altitude', 0)`. -/
def get_android_gps (r : SensorResult) (now : ℤ) (t : TargetLocation) : Packet :=
  match r with
  | .failure => fallback_gps now t
  | .ok d =>
    match d.latitude, d.longitude with
    | some la, some lo =>
      { latitude := la, longitude := lo, altitude := d.altitude.getD 0,
        timestamp := now, valid := true, targetLatitude := t.latitude,
        targetLongitude := t.longitude, targetAltitude := t.altitude,
        hasTarget := t.isSet }
    | none, _ => fallback_gps now t
    | _, none => fallback_gps now t

/-- C6: on every internal failure — the location command failing or its
output failing to parse (`SensorResult.failure`), or the parsed JSON lacking
a required field — `get_android_gps` returns (rather than raises) the
packet with `valid = false`, zeroed coordinates, the current timestamp and
the current target fields attached. -/
theorem get_android_gps_failure_fallback (r : SensorResult) (now : ℤ)
    (t : TargetLocation)
    (h : r = .failure ∨
      ∃ d, r = .ok d ∧ (d.latitude = none ∨ d.longitude = none)) :
    get_android_gps r now t =
      { latitude := 0, longitude := 0, altitude := 0, timestamp := now,
        valid := false, targetLatitude := t.latitude,
        targetLongitude := t.longitude, targetAltitude := t.altitude,
        hasTarget := t.isSet } := by
  rcases h with rfl | ⟨d, rfl, hd⟩
  · rfl
  · obtain ⟨dla, dlo, dal⟩ := d
    cases dla <;> cases dlo <;> simp_all [get_android_gps, fallback_gps]

/-- C6 witness: the fallback checked on a failing sensor call and on output
that lacks the `longitude` key. -/
theorem get_android_gps_failure_fallback_witness :
    get_android_gps .failure 7 (set_target_location 1 2 3) =
      { latitude := 0, longitude := 0, altitude := 0, timestamp := 7,
        valid := false, targetLatitude := some 1, targetLongitude := some 2,
        targetAltitude := 3, hasTarget := true } ∧
    get_android_gps (.ok ⟨some 5, none, none⟩) 7 target_location_init =
      { latitude := 0, longitude := 0, altitude := 0, timestamp := 7,
        valid := false, targetLatitude := none, targetLongitude := none,
        targetAltitude := 0, hasTarget := false } :=
  ⟨get_android_gps_failure_fallback .failure 7 (set_target_location 1 2 3)
      (Or.inl rfl),
    get_android_gps_failure_fallback (.ok ⟨some 5, none, none⟩) 7
      target_location_init (Or.inr ⟨_, rfl, Or.inr rfl⟩)⟩

/-- JSON values as `json.dumps` distinguishes them on the wire: a number,
an integer, a boolean, or `null`. -/
inductive JsonValue where
  | num (q : ℚ)
  | intVal (z : ℤ)
  | boolVal (b : Bool)
  | null
  deriving DecidableEq, Repr, Inhabited

/-- A Python `None` / float field serializes to `null` / a number. -/
def jsonOfOpt : Option ℚ → JsonValue
  | none => .null
  | some q => .num q

def JsonValue.isIntVal : JsonValue → Bool
  | .intVal _ => true
  | _ => false

def JsonValue.isBoolVal : JsonValue → Bool
  | .boolVal _ => true
  | _ => false

def JsonValue.isNumOrNull : JsonValue → Bool
  | .num _ => true
  | .null => true
  | _ => false

/-- Serialization `json.dumps(gps_data)`: the key/value pairs of the dict literal both
scripts build, in insertion order. -/
def packetToJson (p : Packet) : List (String × JsonValue) :=
  [("latitude", .num p.latitude),
   ("longitude", .num p.longitude),
   ("altitude", .num p.altitude),
   ("timestamp", .intVal p.timestamp),
   ("valid", .boolVal p.valid),
   ("targetLatitude", jsonOfOpt p.targetLatitude),
   ("targetLongitude", jsonOfOpt p.targetLongitude),
   ("targetAltitude", .num p.targetAltitude),
   ("hasTarget", .boolVal p.hasTarget)]

/-- The nine keys, in the order both dict literals write them. -/
def wireKeys : List String :=
  ["latitude", "longitude", "altitude", "timestamp", "valid",
   "targetLatitude", "targetLongitude", "targetAltitude", "hasTarget"]

lemma jsonOfOpt_isNumOrNull (o : Option ℚ) : (jsonOfOpt o).isNumOrNull = true := by
  cases o <;> rfl

/-- C9: every outbound packet — from the simulated source for any draws and
from the live source for any sensor outcome — serializes to a JSON object
with exactly the nine keys latitude, longitude, altitude, timestamp, valid,
targetLatitude, targetLongitude, targetAltitude, hasTarget; timestamp is an
integer, valid and hasTarget are booleans, and targetLatitude /
targetLongitude are each a number or null. -/
theorem outbound_packet_shape (u1 u2 u3 : ℚ) (r : SensorResult) (now : ℤ)
    (t : TargetLocation) :
    ((packetToJson (generate_random_gps u1 u2 u3 now t)).map Prod.fst = wireKeys ∧
      (packetToJson (get_android_gps r now t)).map Prod.fst = wireKeys) ∧
    (∀ p : Packet,
      (p = generate_random_gps u1 u2 u3 now t ∨ p = get_android_gps r now t) →
      ((packetToJson p).map (fun kv => kv.2))[3]!.isIntVal = true ∧
      ((packetToJson p).map (fun kv => kv.2))[4]!.isBoolVal = true ∧
      ((packetToJson p).map (fun kv => kv.2))[8]!.isBoolVal = true ∧
      ((packetToJson p).map (fun kv => kv.2))[5]!.isNumOrNull = true ∧
      ((packetToJson p).map (fun kv => kv.2))[6]!.isNumOrNull = true) := by
  refine ⟨⟨rfl, rfl⟩, ?_⟩
  rintro p (rfl | rfl) <;>
    exact ⟨rfl, rfl, rfl, jsonOfOpt_isNumOrNull _, jsonOfOpt_isNumOrNull _⟩

/-- C9 witness: the shape checked on a concrete simulated packet. -/
theorem outbound_packet_shape_witness :
    (packetToJson (generate_random_gps 0 0 0 5 target_location_init)).map
        Prod.fst = wireKeys ∧
    ((packetToJson (generate_random_gps 0 0 0 5 target_location_init)).map
        (fun kv => kv.2))[3]!.isIntVal = true :=
  ⟨(outbound_packet_shape 0 0 0 .failure 5 target_location_init).1.1,
    ((outbound_packet_shape 0 0 0 .failure 5 target_location_init).2
      _ (Or.inl rfl)).1⟩

/-- Outcome of one pass through the coordinate branch of
`handle_user_input` after a `y`/`yes` command. -/
inductive CoordResult where
  | setTarget (lat lon alt : ℚ)
  | formatError
  | parseError
  deriving DecidableEq, Repr

/-- The coordinate line after `coords.split()`: one entry per
whitespace-separated token, `some q` when `float(token)` succeeds with
value `q` and `none` when it raises `ValueError`. -/
def parseCoords : List (Option ℚ) → CoordResult
  | some lat :: some lon :: rest =>
    match rest with
    | [] => .setTarget lat lon 0
    | some alt :: _ => .setTarget lat lon alt
    | none :: _ => .parseError
  | _ :: _ :: _ => .parseError
  | _ => .formatError

/-- One coordinate-line iteration of `handle_user_input`: parse the tokens
and either call `set_target_location` or print a diagnostic, leaving the
registry untouched. -/
def handle_coord_line (t : TargetLocation) (parts : List (Option ℚ)) :
    TargetLocation × CoordResult :=
  match parseCoords parts with
  | .setTarget lat lon alt => (set_target_location lat lon alt, .setTarget lat lon alt)
  | .formatError => (t, .formatError)
  | .parseError => (t, .parseError)

/-- The `while True` console loop over a finite stream of coordinate lines:
every line is processed (errors only print) and the loop moves on. -/
def handle_user_input (t : TargetLocation) :
    List (List (Option ℚ)) → TargetLocation × List CoordResult
  | [] => (t, [])
  | line :: rest =>
    let step := handle_coord_line t line
    let next := handle_user_input step.1 rest
    (next.1, step.2 :: next.2)

/-- C7: after a `y`/`yes` command, a coordinate line with too few tokens
(fewer than the two the format requires) reports a format error and leaves
the registry unchanged; a line whose examined tokens (the first two, and
the third when present) contain a non-numeric one reports a parse error and
leaves the registry unchanged; and the console loop keeps processing every
subsequent line instead of terminating. -/
theorem console_bad_input_unchanged :
    (∀ (t : TargetLocation) (parts : List (Option ℚ)), parts.length < 2 →
      handle_coord_line t parts = (t, .formatError)) ∧
    (∀ (t : TargetLocation) (p0 p1 : Option ℚ) (rest : List (Option ℚ)),
      (p0 = none ∨ p1 = none ∨ (∃ r2, rest = none :: r2)) →
      handle_coord_line t (p0 :: p1 :: rest) = (t, .parseError)) ∧
    (∀ (t : TargetLocation) (lines : List (List (Option ℚ))),
      (handle_user_input t lines).2.length = lines.length) := by
  refine ⟨?_, ?_, ?_⟩
  · intro t parts h
    match parts with
    | [] => rfl
    | [p0] => cases p0 <;> rfl
    | p0 :: p1 :: rest => simp at h; omega
  · rintro t p0 p1 rest (rfl | rfl | ⟨r2, rfl⟩)
    · cases p1 <;> rfl
    · cases p0 <;> rfl
    · cases p0 <;> cases p1 <;> rfl
  · intro t lines
    induction lines generalizing t with
    | nil => rfl
    | cons line rest ih => simp [handle_user_input, ih]

/-- C7 witness: a one-token line, a non-numeric line and loop continuation
checked on concrete inputs. -/
theorem console_bad_input_unchanged_witness :
    handle_coord_line (set_target_location 1 2 3) [some 5] =
      (set_target_location 1 2 3, .formatError) ∧
    handle_coord_line (set_target_location 1 2 3) [none, none] =
      (set_target_location 1 2 3, .parseError) ∧
    (handle_user_input (set_target_location 1 2 3)
      [[some 5], [none, none], [some 4, some 6]]).2.length = 3 :=
  ⟨console_bad_input_unchanged.1 (set_target_location 1 2 3) [some 5]
      (by decide),
    console_bad_input_unchanged.2.1 (set_target_location 1 2 3) none none []
      (Or.inl rfl),
    console_bad_input_unchanged.2.2 (set_target_location 1 2 3)
      [[some 5], [none, none], [some 4, some 6]]⟩

/-- C10: a coordinate line whose first three tokens are numeric sets the
target from the first three tokens only; any further tokens are silently
ignored rather than reported as a format error — in particular the line
`1 2 3 4` sets the target to `(1, 2, 3)`. -/
theorem console_extra_tokens_ignored (t : TargetLocation) (lat lon alt : ℚ)
    (extra : List (Option ℚ)) :
    handle_coord_line t (some lat :: some lon :: some alt :: extra) =
      (set_target_location lat lon alt, .setTarget lat lon alt) ∧
    handle_coord_line t [some 1, some 2, some 3, some 4] =
      (set_target_location 1 2 3, .setTarget 1 2 3) :=
  ⟨rfl, rfl⟩

/-- Outcome of one body of the `while True` send loop in `handle_client`:
`ok` when `json.dumps` and `client_socket.send` both succeed, `error` when
either raises. -/
inductive SendOutcome where
  | ok
  | error
  deriving DecidableEq, Repr

/-- One client session's thread: whether its loop is still running and how
many packets it has sent.  `alive = false` means the `except` branch ran
and the `finally` closed this session's socket. -/
structure SessionState where
  alive : Bool
  sentCount : ℕ
  deriving DecidableEq, Repr

/-- The whole server: the listening socket plus one session per accepted
connection, in accept order. -/
structure ServerState where
  listening : Bool
  sessions : List SessionState
  deriving DecidableEq, Repr

/-- One iteration of `handle_client` for a single session: a successful
serialize-and-send bumps the count; an exception ends the loop and closes
the connection (no retry); a session already closed does nothing. -/
def sessionTick (o : SendOutcome) (s : SessionState) : SessionState :=
  if s.alive then
    match o with
    | .ok => { s with sentCount := s.sentCount + 1 }
    | .error => { s with alive := false }
  else s

/-- Deliver a send outcome to session `i` only, leaving the rest alone:
each session runs in its own thread. -/
def deliverTick : List SessionState → ℕ → SendOutcome → List SessionState
  | [], _, _ => []
  | s :: rest, 0, o => sessionTick o s :: rest
  | s :: rest, n + 1, o => s :: deliverTick rest n o

/-- Events of the server: `accept` spawns a fresh session thread;
`sendTick i o` is one send-loop iteration of session `i` with outcome `o`. -/
inductive ServerEvent where
  | accept
  | sendTick (i : ℕ) (o : SendOutcome)
  deriving DecidableEq, Repr

/-- The server's reaction to one event.  Nothing a session does touches the
listening socket or another session. -/
def serverStep (s : ServerState) : ServerEvent → ServerState
  | .accept => { s with sessions := s.sessions ++ [{ alive := true, sentCount := 0 }] }
  | .sendTick i o => { s with sessions := deliverTick s.sessions i o }

lemma deliverTick_length (l : List SessionState) (i : ℕ) (o : SendOutcome) :
    (deliverTick l i o).length = l.length := by
  induction l generalizing i with
  | nil => rfl
  | cons s rest ih =>
    cases i with
    | zero => rfl
    | succ n => simpa [deliverTick] using ih n

lemma deliverTick_getElem_ne (l : List SessionState) (i j : ℕ)
    (o : SendOutcome) (hne : j ≠ i) : (deliverTick l i o)[j]? = l[j]? := by
  induction l generalizing i j with
  | nil => rfl
  | cons s rest ih =>
    cases i with
    | zero =>
      cases j with
      | zero => exact absurd rfl hne
      | succ m => simp [deliverTick]
    | succ n =>
      cases j with
      | zero => simp [deliverTick]
      | succ m =>
        simp only [deliverTick, List.getElem?_cons_succ]
        exact ih n m (fun h => hne (by omega))

lemma deliverTick_getElem_eq (l : List SessionState) (i : ℕ) (o : SendOutcome) :
    (deliverTick l i o)[i]? = (l[i]?).map (sessionTick o) := by
  induction l generalizing i with
  | nil => rfl
  | cons s rest ih =>
    cases i with
    | zero => simp [deliverTick]
    | succ n => simpa [deliverTick] using ih n

/-- C8: a serialization or send error in session `i` closes exactly that
session — its loop stops, its socket is closed, its send count stays where
it was (no retry) — while every other session, and the listening socket,
are untouched; a closed session never sends again. -/
theorem session_error_isolated (s : ServerState) (i : ℕ) :
    (serverStep s (.sendTick i .error)).listening = s.listening ∧
    (serverStep s (.sendTick i .error)).sessions.length = s.sessions.length ∧
    (∀ j, j ≠ i →
      (serverStep s (.sendTick i .error)).sessions[j]? = s.sessions[j]?) ∧
    (∀ sess, s.sessions[i]? = some sess →
      (serverStep s (.sendTick i .error)).sessions[i]? =
        some { alive := false, sentCount := sess.sentCount } ∨
      (sess.alive = false ∧
        (serverStep s (.sendTick i .error)).sessions[i]? = some sess)) ∧
    (∀ (o : SendOutcome) (sess : SessionState), sess.alive = false →
      sessionTick o sess = sess) := by
  refine ⟨rfl, deliverTick_length s.sessions i .error, ?_, ?_, ?_⟩
  · intro j hj
    exact deliverTick_getElem_ne s.sessions i j .error hj
  · intro sess hsess
    rw [serverStep]
    simp only [deliverTick_getElem_eq, hsess, Option.map_some]
    by_cases ha : sess.alive
    · left
      simp [sessionTick, ha]
    · right
      simp only [Bool.not_eq_true] at ha
      exact ⟨ha, by simp [sessionTick, ha]⟩
  · intro o sess ha
    simp [sessionTick, ha]

/-- C8 witness: the isolation checked on a concrete two-session server in
which session 0 hits a send error. -/
theorem session_error_isolated_witness :
    (serverStep ⟨true, [⟨true, 4⟩, ⟨true, 2⟩]⟩ (.sendTick 0 .error)).listening
        = true ∧
    (serverStep ⟨true, [⟨true, 4⟩, ⟨true, 2⟩]⟩
        (.sendTick 0 .error)).sessions[1]? = some ⟨true, 2⟩ ∧
    ((serverStep ⟨true, [⟨true, 4⟩, ⟨true, 2⟩]⟩
        (.sendTick 0 .error)).sessions[0]? = some ⟨false, 4⟩ ∨
      ((⟨true, 4⟩ : SessionState).alive = false ∧
        (serverStep ⟨true, [⟨true, 4⟩, ⟨true, 2⟩]⟩
          (.sendTick 0 .error)).sessions[0]? = some ⟨true, 4⟩)) :=
  ⟨(session_error_isolated ⟨true, [⟨true, 4⟩, ⟨true, 2⟩]⟩ 0).1,
    (session_error_isolated ⟨true, [⟨true, 4⟩, ⟨true, 2⟩]⟩ 0).2.2.1 1
      (by decide),
    (session_error_isolated ⟨true, [⟨true, 4⟩, ⟨true, 2⟩]⟩ 0).2.2.2.1
      ⟨true, 4⟩ rfl⟩
